import Mathlib

/-!
Verification of the in-memory device/command registry of the DATN Smart Light
mock API server (src/main.py).

The server keeps three process-wide Python dicts:
  registered_gateways : Dict[str, dict]
  node_status         : Dict[str, dict]
  command_queue       : Dict[str, List[dict]]
and five handlers: register_device, report_status, get_command,
test_send_command and test_status.

We embed the state shallowly: Python dicts become association lists with
Python-dict assignment semantics (replace the existing entry in place, else
append at the end), and every handler becomes a pure function from state and
parsed request fields to (new state, response).  Python `time.time()` becomes
an explicit `now : Nat` argument.  Python `None` (which `data.get` returns for
a key absent and no default, as in `data.get("gateway_mac")` inside
test_send_command) is modelled by `Option`: the command_queue keys are
`Option String`, where `none` is the Python `None` key and `some s` a string
key.  Print statements are logging with no effect on state or responses and
are omitted.
-/

namespace SmartLight

/-- First value bound to key `k`, like Python `d[k]` / `k in d` lookup. -/
def lookupKey {K V : Type} [DecidableEq K] : List (K × V) → K → Option V
  | [], _ => none
  | (k', v) :: rest, k => if k = k' then some v else lookupKey rest k

/-- Python `k in d`. -/
def containsKey {K V : Type} [DecidableEq K] (l : List (K × V)) (k : K) : Bool :=
  (lookupKey l k).isSome

/-- Python dict assignment `d[k] = v`: replace the entry in place if the key
is present, otherwise append a new entry at the end. -/
def setKey {K V : Type} [DecidableEq K] : List (K × V) → K → V → List (K × V)
  | [], k, v => [(k, v)]
  | (k', v') :: rest, k, v =>
      if k = k' then (k, v) :: rest else (k', v') :: setKey rest k v

/-- Number of entries stored under key `k` (a well-formed dict has at most
one). -/
def countKey {K V : Type} [DecidableEq K] : List (K × V) → K → Nat
  | [], _ => 0
  | (k', _) :: rest, k => (if k = k' then 1 else 0) + countKey rest k

/-- Value stored in `registered_gateways[mac]` by register_device. -/
structure GatewayRecord where
  mac : String
  registered_at : Nat
  last_seen : Nat
deriving DecidableEq

/-- Value stored in `node_status[device_id]` by report_status. -/
structure NodeStatus where
  brightness : Int
  lux : Int
  current : Rat
  timestamp : Nat
  gateway : String
deriving DecidableEq

/-- A queued command `{deviceId, brightness}` (src/main.py documented command
shape). -/
structure Command where
  deviceId : String
  brightness : Int
deriving DecidableEq

/-- One element of the `devices` array of a report request; every field is
optional, `device.get` supplies the default. -/
structure NodeUpdate where
  deviceId : Option String
  brightness : Option Int
  lux : Option Int
  current : Option Rat
deriving DecidableEq

/-- The three in-memory stores of src/main.py. -/
structure ServerState where
  registered_gateways : List (String × GatewayRecord)
  node_status : List (String × NodeStatus)
  command_queue : List (Option String × List Command)
deriving DecidableEq

/-- State at process start: all three dicts empty. -/
def initialState : ServerState := ⟨[], [], []⟩

structure RegisterResponse where
  ok : Bool
  deviceId : String
deriving DecidableEq

structure ReportResponse where
  ok : Bool
deriving DecidableEq

structure NextCommandResponse where
  ok : Bool
  devices : List Command
deriving DecidableEq

structure InjectResponse where
  ok : Bool
  msg : String
deriving DecidableEq

/-- POST /devices/register (src/main.py, register_device).
`mac = data.get("mac", "UNKNOWN")`; stores the gateway record under `mac`
(overwriting any previous one) and creates an empty command queue only when
none exists for `mac`. -/
def register_device (st : ServerState) (mac? : Option String) (now : Nat) :
    ServerState × RegisterResponse :=
  let mac := mac?.getD "UNKNOWN"
  let gws := setKey st.registered_gateways mac ⟨mac, now, now⟩
  let cq :=
    if containsKey st.command_queue (some mac) then st.command_queue
    else setKey st.command_queue (some mac) []
  (⟨gws, st.node_status, cq⟩, ⟨true, mac⟩)

/-- Record written for one node update by report_status:
`device.get("deviceId", "UNKNOWN")` keyed, value with defaults 0 / 0.0,
`timestamp = time.time()`, `gateway = gw_id`. -/
def updateNode (ns : List (String × NodeStatus)) (gw_id : String) (now : Nat)
    (u : NodeUpdate) : List (String × NodeStatus) :=
  setKey ns (u.deviceId.getD "UNKNOWN")
    ⟨u.brightness.getD 0, u.lux.getD 0, u.current.getD 0, now, gw_id⟩

/-- POST /devices/report (src/main.py, report_status).
`gw_id = data.get("gw_id", "UNKNOWN")`, `devices = data.get("devices", [])`;
writes node_status for each listed device in order and always answers ok. -/
def report_status (st : ServerState) (gw_id? : Option String)
    (devices : List NodeUpdate) (now : Nat) : ServerState × ReportResponse :=
  let gw_id := gw_id?.getD "UNKNOWN"
  let ns := devices.foldl (fun acc u => updateNode acc gw_id now u) st.node_status
  (⟨st.registered_gateways, ns, st.command_queue⟩, ⟨true⟩)

/-- GET /devices/\x7bmac\x7d/next-command (src/main.py, get_command).
If `device_mac in command_queue and len(command_queue[device_mac]) > 0`,
answers the whole queue and resets it to `[]`; otherwise answers an empty
list without touching the state.  The path parameter is always a string, so
the lookup key is `some device_mac`. -/
def get_command (st : ServerState) (device_mac : String) :
    ServerState × NextCommandResponse :=
  match lookupKey st.command_queue (some device_mac) with
  | some commands =>
      if commands.length > 0 then
        (⟨st.registered_gateways, st.node_status,
          setKey st.command_queue (some device_mac) []⟩, ⟨true, commands⟩)
      else (st, ⟨true, []⟩)
  | none => (st, ⟨true, []⟩)

/-- POST /test/send-command (src/main.py, test_send_command).
`gateway_mac = data.get("gateway_mac")` — note: NO default, so a missing
field yields the Python `None` key, modelled by `none`.  Ensures the queue
exists, extends it with the supplied commands and reports their count. -/
def test_send_command (st : ServerState) (gateway_mac? : Option String)
    (commands : List Command) : ServerState × InjectResponse :=
  let cq0 :=
    if containsKey st.command_queue gateway_mac? then st.command_queue
    else setKey st.command_queue gateway_mac? []
  let cq := setKey cq0 gateway_mac?
    ((lookupKey cq0 gateway_mac?).getD [] ++ commands)
  (⟨st.registered_gateways, st.node_status, cq⟩,
   ⟨true, "Added " ++ toString commands.length ++ " command(s) to queue"⟩)

/-- Registered-gateway count as printed by register_device and answered by
GET /test/status: `len(registered_gateways)`. -/
def gatewayCount (st : ServerState) : Nat := st.registered_gateways.length

/-! ## Dictionary lemmas -/

theorem lookupKey_setKey_self {K V : Type} [DecidableEq K]
    (l : List (K × V)) (k : K) (v : V) : lookupKey (setKey l k v) k = some v := by
  induction l with
  | nil => simp [setKey, lookupKey]
  | cons p rest ih =>
      obtain ⟨k', v'⟩ := p
      by_cases h : k = k'
      · simp [setKey, lookupKey, h]
      · simp [setKey, lookupKey, h, ih]

theorem lookupKey_setKey_ne {K V : Type} [DecidableEq K]
    (l : List (K × V)) (k k' : K) (v : V) (h : k ≠ k') :
    lookupKey (setKey l k' v) k = lookupKey l k := by
  induction l with
  | nil => simp [setKey, lookupKey, h]
  | cons p rest ih =>
      obtain ⟨k₀, v₀⟩ := p
      by_cases hk : k' = k₀
      · subst hk
        simp [setKey, lookupKey, h]
      · by_cases hk2 : k = k₀
        · simp [setKey, lookupKey, hk, hk2]
        · simp [setKey, lookupKey, hk, hk2, ih]

theorem containsKey_setKey_self {K V : Type} [DecidableEq K]
    (l : List (K × V)) (k : K) (v : V) : containsKey (setKey l k v) k = true := by
  simp [containsKey, lookupKey_setKey_self]

theorem length_setKey_of_contains {K V : Type} [DecidableEq K]
    (l : List (K × V)) (k : K) (v : V) (h : containsKey l k = true) :
    (setKey l k v).length = l.length := by
  induction l with
  | nil => simp [containsKey, lookupKey] at h
  | cons p rest ih =>
      obtain ⟨k', v'⟩ := p
      by_cases hk : k = k'
      · simp [setKey, hk]
      · simp [containsKey, lookupKey, hk] at h
        simp [setKey, hk, ih h]

theorem countKey_setKey_ne {K V : Type} [DecidableEq K]
    (l : List (K × V)) (k k' : K) (v : V) (h : k ≠ k') :
    countKey (setKey l k' v) k = countKey l k := by
  induction l with
  | nil => simp [setKey, countKey, h]
  | cons p rest ih =>
      obtain ⟨k₀, v₀⟩ := p
      by_cases hk : k' = k₀
      · subst hk
        simp [setKey, countKey, h]
      · simp [setKey, countKey, hk, ih]

theorem countKey_eq_zero_of_not_contains {K V : Type} [DecidableEq K]
    (l : List (K × V)) (k : K) (h : containsKey l k = false) :
    countKey l k = 0 := by
  induction l with
  | nil => simp [countKey]
  | cons p rest ih =>
      obtain ⟨k', v'⟩ := p
      by_cases hk : k = k'
      · simp [containsKey, lookupKey, hk] at h
      · simp [containsKey, lookupKey, hk] at h
        simp [countKey, hk, ih (by simp [containsKey, h])]

theorem one_le_countKey_of_contains {K V : Type} [DecidableEq K]
    (l : List (K × V)) (k : K) (h : containsKey l k = true) :
    1 ≤ countKey l k := by
  induction l with
  | nil => simp [containsKey, lookupKey] at h
  | cons p rest ih =>
      obtain ⟨k', v'⟩ := p
      by_cases hk : k = k'
      · simp [countKey, hk]
      · simp [containsKey, lookupKey, hk] at h
        simp [countKey, hk]
        exact ih (by simp [containsKey, h])

theorem countKey_setKey_self_of_contains {K V : Type} [DecidableEq K]
    (l : List (K × V)) (k : K) (v : V) (h : containsKey l k = true) :
    countKey (setKey l k v) k = countKey l k := by
  induction l with
  | nil => simp [containsKey, lookupKey] at h
  | cons p rest ih =>
      obtain ⟨k', v'⟩ := p
      by_cases hk : k = k'
      · simp [setKey, countKey, hk]
      · simp [containsKey, lookupKey, hk] at h
        simp [setKey, countKey, hk, ih h]

theorem countKey_setKey_self_of_not_contains {K V : Type} [DecidableEq K]
    (l : List (K × V)) (k : K) (v : V) (h : containsKey l k = false) :
    countKey (setKey l k v) k = countKey l k + 1 := by
  induction l with
  | nil => simp [setKey, countKey]
  | cons p rest ih =>
      obtain ⟨k', v'⟩ := p
      by_cases hk : k = k'
      · simp [containsKey, lookupKey, hk] at h
      · simp [containsKey, lookupKey, hk] at h
        simp [setKey, countKey, hk, ih (by simp [containsKey, h])]

theorem countKey_setKey_self_of_le_one {K V : Type} [DecidableEq K]
    (l : List (K × V)) (k : K) (v : V) (h : countKey l k ≤ 1) :
    countKey (setKey l k v) k = 1 := by
  cases hc : containsKey l k with
  | false =>
      rw [countKey_setKey_self_of_not_contains l k v hc,
        countKey_eq_zero_of_not_contains l k hc]
  | true =>
      rw [countKey_setKey_self_of_contains l k v hc]
      have h1 := one_le_countKey_of_contains l k hc
      omega

theorem countKey_setKey_le_one {K V : Type} [DecidableEq K]
    (l : List (K × V)) (k k' : K) (v : V) (h : countKey l k ≤ 1) :
    countKey (setKey l k' v) k ≤ 1 := by
  by_cases hk : k = k'
  · subst hk
    rw [countKey_setKey_self_of_le_one l k v h]
  · rw [countKey_setKey_ne l k k' v hk]
    exact h

/-! ## Handler-level lemmas -/

theorem get_command_eq_of_some (st : ServerState) (m : String) (q : List Command)
    (hq : lookupKey st.command_queue (some m) = some q) (hne : q ≠ []) :
    get_command st m =
      (⟨st.registered_gateways, st.node_status,
        setKey st.command_queue (some m) []⟩, ⟨true, q⟩) := by
  have hlen : q.length > 0 := List.length_pos.mpr hne
  unfold get_command
  rw [hq]
  simp [hlen]

theorem get_command_eq_empty (st : ServerState) (m : String)
    (hq : lookupKey st.command_queue (some m) = none ∨
          lookupKey st.command_queue (some m) = some []) :
    get_command st m = (st, ⟨true, []⟩) := by
  unfold get_command
  rcases hq with h | h
  · rw [h]
  · rw [h]
    simp

theorem test_send_command_queue_self (st : ServerState) (g : Option String)
    (cs : List Command) :
    lookupKey (test_send_command st g cs).1.command_queue g =
      some ((lookupKey st.command_queue g).getD [] ++ cs) := by
  unfold test_send_command
  cases hl : lookupKey st.command_queue g with
  | none =>
      have hc : containsKey st.command_queue g = false := by simp [containsKey, hl]
      simp [hc, lookupKey_setKey_self, hl]
  | some q =>
      have hc : containsKey st.command_queue g = true := by simp [containsKey, hl]
      simp [hc, lookupKey_setKey_self, hl]

theorem test_send_command_queue_ne (st : ServerState) (g g' : Option String)
    (cs : List Command) (h : g' ≠ g) :
    lookupKey (test_send_command st g cs).1.command_queue g' =
      lookupKey st.command_queue g' := by
  unfold test_send_command
  cases hc : containsKey st.command_queue g with
  | true => simp [hc, lookupKey_setKey_ne _ _ _ _ h]
  | false => simp [hc, lookupKey_setKey_ne _ _ _ _ h]

theorem register_device_queue_of_contains (st : ServerState) (mac? : Option String)
    (now : Nat) (h : containsKey st.command_queue (some (mac?.getD "UNKNOWN")) = true) :
    (register_device st mac? now).1.command_queue = st.command_queue := by
  unfold register_device
  simp [h]

/-! ## Claims -/

/-- Claim C1: drain exactness.  For every gateway identifier G whose queue is
empty or absent and every non-empty command list cs, injecting cs for G and
then polling G answers ok with exactly cs in enqueue order, resets G's queue
to empty, and an immediately following poll answers ok with the empty list. -/
theorem drain_exactness (st : ServerState) (G : String) (cs : List Command)
    (hne : cs ≠ [])
    (hq : lookupKey st.command_queue (some G) = none ∨
          lookupKey st.command_queue (some G) = some []) :
    (get_command (test_send_command st (some G) cs).1 G).2 = ⟨true, cs⟩ ∧
    lookupKey (get_command (test_send_command st (some G) cs).1 G).1.command_queue
      (some G) = some [] ∧
    (get_command (get_command (test_send_command st (some G) cs).1 G).1 G).2 =
      ⟨true, []⟩ := by
  have h1 : lookupKey (test_send_command st (some G) cs).1.command_queue (some G) =
      some cs := by
    rw [test_send_command_queue_self]
    rcases hq with h | h <;> simp [h]
  have h2 := get_command_eq_of_some _ G cs h1 hne
  rw [h2]
  refine ⟨rfl, lookupKey_setKey_self _ _ _, ?_⟩
  rw [get_command_eq_empty]
  exact Or.inr (lookupKey_setKey_self _ _ _)

/-- Claim C1 witness at a concrete input. -/
theorem drain_exactness_witness :
    (([(⟨"ND_01", 70⟩ : Command)] ≠ []) ∧
     (lookupKey initialState.command_queue (some "AA:BB") = none ∨
      lookupKey initialState.command_queue (some "AA:BB") = some [])) ∧
    ((get_command (test_send_command initialState (some "AA:BB")
        [⟨"ND_01", 70⟩]).1 "AA:BB").2 = ⟨true, [⟨"ND_01", 70⟩]⟩ ∧
     lookupKey (get_command (test_send_command initialState (some "AA:BB")
        [⟨"ND_01", 70⟩]).1 "AA:BB").1.command_queue (some "AA:BB") = some [] ∧
     (get_command (get_command (test_send_command initialState (some "AA:BB")
        [⟨"ND_01", 70⟩]).1 "AA:BB").1 "AA:BB").2 = ⟨true, []⟩) :=
  ⟨⟨by decide, Or.inl rfl⟩,
   drain_exactness initialState "AA:BB" [⟨"ND_01", 70⟩] (by decide) (Or.inl rfl)⟩

/-- Claim C2: no cross-gateway leakage.  For distinct gateways G1 and G2 whose
queues start empty or absent, injecting [c1] for G1 and then polling G2
answers the empty list, leaves G1's queue holding [c1], and a subsequent poll
of G1 still answers [c1]. -/
theorem no_cross_gateway_leakage (st : ServerState) (G1 G2 : String) (c1 : Command)
    (hne : G1 ≠ G2)
    (h1 : lookupKey st.command_queue (some G1) = none ∨
          lookupKey st.command_queue (some G1) = some [])
    (h2 : lookupKey st.command_queue (some G2) = none ∨
          lookupKey st.command_queue (some G2) = some []) :
    (get_command (test_send_command st (some G1) [c1]).1 G2).2 = ⟨true, []⟩ ∧
    lookupKey (get_command (test_send_command st (some G1) [c1]).1 G2).1.command_queue
      (some G1) = some [c1] ∧
    (get_command (get_command (test_send_command st (some G1) [c1]).1 G2).1 G1).2 =
      ⟨true, [c1]⟩ := by
  have hsome : (some G2 : Option String) ≠ some G1 := by
    intro h
    exact hne (Option.some.inj h).symm
  have hq2 : lookupKey (test_send_command st (some G1) [c1]).1.command_queue
      (some G2) = lookupKey st.command_queue (some G2) :=
    test_send_command_queue_ne st (some G1) (some G2) [c1] hsome
  have hpoll : get_command (test_send_command st (some G1) [c1]).1 G2 =
      ((test_send_command st (some G1) [c1]).1, ⟨true, []⟩) := by
    apply get_command_eq_empty
    rw [hq2]
    exact h2
  have hg1 : lookupKey (test_send_command st (some G1) [c1]).1.command_queue
      (some G1) = some [c1] := by
    rw [test_send_command_queue_self]
    rcases h1 with h | h <;> simp [h]
  rw [hpoll]
  refine ⟨rfl, hg1, ?_⟩
  rw [get_command_eq_of_some _ G1 [c1] hg1 (by simp)]

/-- Claim C2 witness at a concrete input. -/
theorem no_cross_gateway_leakage_witness :
    (("GW_A" : String) ≠ "GW_B" ∧
     (lookupKey initialState.command_queue (some "GW_A") = none ∨
      lookupKey initialState.command_queue (some "GW_A") = some []) ∧
     (lookupKey initialState.command_queue (some "GW_B") = none ∨
      lookupKey initialState.command_queue (some "GW_B") = some [])) ∧
    ((get_command (test_send_command initialState (some "GW_A")
        [⟨"ND_01", 70⟩]).1 "GW_B").2 = ⟨true, []⟩ ∧
     lookupKey (get_command (test_send_command initialState (some "GW_A")
        [⟨"ND_01", 70⟩]).1 "GW_B").1.command_queue (some "GW_A") =
        some [⟨"ND_01", 70⟩] ∧
     (get_command (get_command (test_send_command initialState (some "GW_A")
        [⟨"ND_01", 70⟩]).1 "GW_B").1 "GW_A").2 = ⟨true, [⟨"ND_01", 70⟩]⟩) :=
  ⟨⟨by decide, Or.inl rfl, Or.inl rfl⟩,
   no_cross_gateway_leakage initialState "GW_A" "GW_B" ⟨"ND_01", 70⟩
     (by decide) (Or.inl rfl) (Or.inl rfl)⟩

/-- Claim C3: idempotent empty poll.  Polling a gateway whose queue is absent
or empty answers ok with the empty device list and leaves the whole state
(all three stores) unchanged, so any number of repeated polls leaves the
state fixed. -/
theorem idempotent_empty_poll (st : ServerState) (G : String)
    (hq : lookupKey st.command_queue (some G) = none ∨
          lookupKey st.command_queue (some G) = some []) :
    get_command st G = (st, ⟨true, []⟩) ∧
    ∀ n : Nat, Nat.iterate (fun s => (get_command s G).1) n st = st := by
  have h := get_command_eq_empty st G hq
  refine ⟨h, ?_⟩
  intro n
  induction n with
  | zero => rfl
  | succ n ih =>
      rw [Function.iterate_succ_apply', ih, h]

/-- Claim C3 witness at a concrete input: a never-registered, never-enqueued
identifier. -/
theorem idempotent_empty_poll_witness :
    (lookupKey initialState.command_queue (some "GW_X") = none ∨
     lookupKey initialState.command_queue (some "GW_X") = some []) ∧
    (get_command initialState "GW_X" = (initialState, ⟨true, []⟩) ∧
     ∀ n : Nat, Nat.iterate (fun s => (get_command s "GW_X").1) n initialState =
       initialState) :=
  ⟨Or.inl rfl, idempotent_empty_poll initialState "GW_X" (Or.inl rfl)⟩

/-- Claim C4: report overwrite semantics.  Starting from a state holding at
most one node_status record for D, two successive reports whose single node
update names D leave exactly one record for D carrying the second report's
values (defaults for missing fields, timestamp of the second report, gateway
G), and report always answers ok, whatever the update list. -/
theorem report_overwrite_semantics (st : ServerState) (G D : String)
    (u1 u2 : NodeUpdate) (now1 now2 : Nat)
    (h1 : u1.deviceId.getD "UNKNOWN" = D)
    (h2 : u2.deviceId.getD "UNKNOWN" = D)
    (hinv : countKey st.node_status D ≤ 1) :
    (report_status st (some G) [u1] now1).2 = ⟨true⟩ ∧
    (report_status (report_status st (some G) [u1] now1).1 (some G) [u2] now2).2 =
      ⟨true⟩ ∧
    lookupKey (report_status (report_status st (some G) [u1] now1).1 (some G)
        [u2] now2).1.node_status D =
      some ⟨u2.brightness.getD 0, u2.lux.getD 0, u2.current.getD 0, now2, G⟩ ∧
    countKey (report_status (report_status st (some G) [u1] now1).1 (some G)
        [u2] now2).1.node_status D = 1 ∧
    ∀ (gw? : Option String) (ds : List NodeUpdate) (now : Nat),
      (report_status st gw? ds now).2 = ⟨true⟩ := by
  have hns1 : (report_status st (some G) [u1] now1).1.node_status =
      setKey st.node_status D
        ⟨u1.brightness.getD 0, u1.lux.getD 0, u1.current.getD 0, now1, G⟩ := by
    simp [report_status, updateNode, h1]
  have hns2 : (report_status (report_status st (some G) [u1] now1).1 (some G)
      [u2] now2).1.node_status =
      setKey (report_status st (some G) [u1] now1).1.node_status D
        ⟨u2.brightness.getD 0, u2.lux.getD 0, u2.current.getD 0, now2, G⟩ := by
    simp [report_status, updateNode, h2]
  refine ⟨rfl, rfl, ?_, ?_, fun _ _ _ => rfl⟩
  · rw [hns2]
    exact lookupKey_setKey_self _ _ _
  · rw [hns2, hns1]
    apply countKey_setKey_self_of_le_one
    rw [countKey_setKey_self_of_le_one st.node_status D _ hinv]

/-- Claim C4 witness at a concrete input: two reports for node ND_01, first
brightness 10, then brightness 90. -/
theorem report_overwrite_semantics_witness :
    ((⟨some "ND_01", some 10, none, none⟩ : NodeUpdate).deviceId.getD "UNKNOWN" =
        "ND_01" ∧
     (⟨some "ND_01", some 90, none, none⟩ : NodeUpdate).deviceId.getD "UNKNOWN" =
        "ND_01" ∧
     countKey initialState.node_status "ND_01" ≤ 1) ∧
    ((report_status initialState (some "GW_01")
        [⟨some "ND_01", some 10, none, none⟩] 0).2 = ⟨true⟩ ∧
     (report_status (report_status initialState (some "GW_01")
        [⟨some "ND_01", some 10, none, none⟩] 0).1 (some "GW_01")
        [⟨some "ND_01", some 90, none, none⟩] 1).2 = ⟨true⟩ ∧
     lookupKey (report_status (report_status initialState (some "GW_01")
        [⟨some "ND_01", some 10, none, none⟩] 0).1 (some "GW_01")
        [⟨some "ND_01", some 90, none, none⟩] 1).1.node_status "ND_01" =
        some ⟨90, 0, 0, 1, "GW_01"⟩ ∧
     countKey (report_status (report_status initialState (some "GW_01")
        [⟨some "ND_01", some 10, none, none⟩] 0).1 (some "GW_01")
        [⟨some "ND_01", some 90, none, none⟩] 1).1.node_status "ND_01" = 1 ∧
     ∀ (gw? : Option String) (ds : List NodeUpdate) (now : Nat),
       (report_status initialState gw? ds now).2 = ⟨true⟩) :=
  ⟨⟨rfl, rfl, by decide⟩,
   report_overwrite_semantics initialState "GW_01" "ND_01"
     ⟨some "ND_01", some 10, none, none⟩ ⟨some "ND_01", some 90, none, none⟩
     0 1 rfl rfl (by decide)⟩

/-- Claim C5 counterexample: in test_send_command the gateway identifier is
read with `data.get("gateway_mac")`, i.e. with NO default, so injecting with
the identifier missing does not store the commands under the sentinel
"UNKNOWN" key — they land under the Python None key instead. -/
theorem inject_missing_mac_no_sentinel :
    lookupKey (test_send_command initialState none
      [⟨"ND_01", 70⟩]).1.command_queue (some "UNKNOWN") = none ∧
    lookupKey (test_send_command initialState none
      [⟨"ND_01", 70⟩]).1.command_queue none = some [⟨"ND_01", 70⟩] := by
  decide

/-- Claim C5 as amended: register and report never fail and replace a missing
identifier by "UNKNOWN" and missing numeric fields by 0 (0.0 for current);
inject also never fails and accepts a missing identifier, but stores the
commands under the Python None key rather than under "UNKNOWN". -/
theorem sentinel_defaults_amended (st : ServerState) (now : Nat)
    (cs : List Command) :
    (register_device st none now).2 = ⟨true, "UNKNOWN"⟩ ∧
    lookupKey (register_device st none now).1.registered_gateways "UNKNOWN" =
      some ⟨"UNKNOWN", now, now⟩ ∧
    (report_status st none [⟨none, none, none, none⟩] now).2 = ⟨true⟩ ∧
    lookupKey (report_status st none
        [⟨none, none, none, none⟩] now).1.node_status "UNKNOWN" =
      some ⟨0, 0, 0, now, "UNKNOWN"⟩ ∧
    (test_send_command st none cs).2 =
      ⟨true, "Added " ++ toString cs.length ++ " command(s) to queue"⟩ ∧
    lookupKey (test_send_command st none cs).1.command_queue none =
      some ((lookupKey st.command_queue none).getD [] ++ cs) := by
  refine ⟨rfl, ?_, rfl, ?_, rfl, test_send_command_queue_self st none cs⟩
  · simp [register_device, lookupKey_setKey_self]
  · simp [report_status, updateNode, lookupKey_setKey_self]

/-- Claim C6: one gateway record per identifier.  Registration always answers
ok with the stored identifier; a second registration of the same identifier
leaves the registered-gateway count unchanged; the at-most-one-record-per-key
invariant is preserved and the registered identifier ends up with exactly one
record. -/
theorem one_gateway_record_per_identifier (st : ServerState)
    (mac? : Option String) (now1 now2 : Nat) (k : String)
    (hm : countKey st.registered_gateways (mac?.getD "UNKNOWN") ≤ 1)
    (hk : countKey st.registered_gateways k ≤ 1) :
    (register_device st mac? now1).2 = ⟨true, mac?.getD "UNKNOWN"⟩ ∧
    (register_device (register_device st mac? now1).1 mac? now2).2 =
      ⟨true, mac?.getD "UNKNOWN"⟩ ∧
    gatewayCount (register_device (register_device st mac? now1).1 mac? now2).1 =
      gatewayCount (register_device st mac? now1).1 ∧
    countKey (register_device (register_device st mac? now1).1 mac?
        now2).1.registered_gateways k ≤ 1 ∧
    countKey (register_device (register_device st mac? now1).1 mac?
        now2).1.registered_gateways (mac?.getD "UNKNOWN") = 1 := by
  have hreg1 : (register_device st mac? now1).1.registered_gateways =
      setKey st.registered_gateways (mac?.getD "UNKNOWN")
        ⟨mac?.getD "UNKNOWN", now1, now1⟩ := rfl
  have hreg2 : (register_device (register_device st mac? now1).1 mac?
      now2).1.registered_gateways =
      setKey (register_device st mac? now1).1.registered_gateways
        (mac?.getD "UNKNOWN") ⟨mac?.getD "UNKNOWN", now2, now2⟩ := rfl
  refine ⟨rfl, rfl, ?_, ?_, ?_⟩
  · show (register_device (register_device st mac? now1).1 mac?
        now2).1.registered_gateways.length =
      (register_device st mac? now1).1.registered_gateways.length
    rw [hreg2]
    apply length_setKey_of_contains
    rw [hreg1]
    exact containsKey_setKey_self _ _ _
  · rw [hreg2, hreg1]
    exact countKey_setKey_le_one _ _ _ _ (countKey_setKey_le_one _ _ _ _ hk)
  · rw [hreg2, hreg1]
    apply countKey_setKey_self_of_le_one
    rw [countKey_setKey_self_of_le_one _ _ _ hm]

/-- Claim C6 witness at a concrete input: registering "AA:BB" twice. -/
theorem one_gateway_record_per_identifier_witness :
    (countKey initialState.registered_gateways "AA:BB" ≤ 1 ∧
     countKey initialState.registered_gateways "GW_X" ≤ 1) ∧
    ((register_device initialState (some "AA:BB") 0).2 = ⟨true, "AA:BB"⟩ ∧
     (register_device (register_device initialState (some "AA:BB") 0).1
        (some "AA:BB") 1).2 = ⟨true, "AA:BB"⟩ ∧
     gatewayCount (register_device (register_device initialState
        (some "AA:BB") 0).1 (some "AA:BB") 1).1 =
       gatewayCount (register_device initialState (some "AA:BB") 0).1 ∧
     countKey (register_device (register_device initialState (some "AA:BB") 0).1
        (some "AA:BB") 1).1.registered_gateways "GW_X" ≤ 1 ∧
     countKey (register_device (register_device initialState (some "AA:BB") 0).1
        (some "AA:BB") 1).1.registered_gateways "AA:BB" = 1) :=
  ⟨⟨by decide, by decide⟩,
   one_gateway_record_per_identifier initialState (some "AA:BB") 0 1 "GW_X"
     (by decide) (by decide)⟩

/-- Claim C7: re-registration preserves pending commands.  When a gateway G
already has a non-empty command queue, register_device only ensures a queue
exists and never clears one, so G's queue still holds the same commands and
the next poll of G returns all of them. -/
theorem reregistration_preserves_pending_commands (st : ServerState)
    (G : String) (now : Nat) (q : List Command)
    (hq : lookupKey st.command_queue (some G) = some q) (hne : q ≠ []) :
    lookupKey (register_device st (some G) now).1.command_queue (some G) =
      some q ∧
    (get_command (register_device st (some G) now).1 G).2 = ⟨true, q⟩ := by
  have hc : containsKey st.command_queue (some G) = true := by
    simp [containsKey, hq]
  have hcq : (register_device st (some G) now).1.command_queue =
      st.command_queue := register_device_queue_of_contains st (some G) now hc
  have hl : lookupKey (register_device st (some G) now).1.command_queue
      (some G) = some q := by rw [hcq]; exact hq
  refine ⟨hl, ?_⟩
  rw [get_command_eq_of_some _ G q hl hne]

/-- Claim C7 witness at a concrete input: a state whose queue for "AA:BB"
already holds one command. -/
theorem reregistration_preserves_pending_commands_witness :
    (lookupKey (⟨[], [], [(some "AA:BB", [⟨"ND_01", 70⟩])]⟩ :
        ServerState).command_queue (some "AA:BB") = some [⟨"ND_01", 70⟩] ∧
     ([(⟨"ND_01", 70⟩ : Command)] ≠ [])) ∧
    (lookupKey (register_device (⟨[], [], [(some "AA:BB", [⟨"ND_01", 70⟩])]⟩ :
        ServerState) (some "AA:BB") 3).1.command_queue (some "AA:BB") =
      some [⟨"ND_01", 70⟩] ∧
     (get_command (register_device (⟨[], [], [(some "AA:BB", [⟨"ND_01", 70⟩])]⟩ :
        ServerState) (some "AA:BB") 3).1 "AA:BB").2 = ⟨true, [⟨"ND_01", 70⟩]⟩) :=
  ⟨⟨by decide, by decide⟩,
   reregistration_preserves_pending_commands
     ⟨[], [], [(some "AA:BB", [⟨"ND_01", 70⟩])]⟩ "AA:BB" 3 [⟨"ND_01", 70⟩]
     (by decide) (by decide)⟩

/-- Claim C8: registeredAt is not preserved across re-registration.
register_device overwrites the whole gateway record, so for an identifier
already present the stored record after a second call carries the second
call's time in both registered_at and last_seen. -/
theorem reregistration_overwrites_registered_at (st : ServerState) (m : String)
    (now : Nat) (r : GatewayRecord)
    (_h : lookupKey st.registered_gateways m = some r) :
    lookupKey (register_device st (some m) now).1.registered_gateways m =
      some ⟨m, now, now⟩ := by
  have hreg : (register_device st (some m) now).1.registered_gateways =
      setKey st.registered_gateways m ⟨m, now, now⟩ := rfl
  rw [hreg]
  exact lookupKey_setKey_self _ _ _

/-- Claim C8 witness at a concrete input: "GW_01" first registered at time 5,
re-registered at time 9. -/
theorem reregistration_overwrites_registered_at_witness :
    lookupKey (⟨[("GW_01", ⟨"GW_01", 5, 5⟩)], [], []⟩ :
        ServerState).registered_gateways "GW_01" = some ⟨"GW_01", 5, 5⟩ ∧
    lookupKey (register_device (⟨[("GW_01", ⟨"GW_01", 5, 5⟩)], [], []⟩ :
        ServerState) (some "GW_01") 9).1.registered_gateways "GW_01" =
      some ⟨"GW_01", 9, 9⟩ :=
  ⟨by decide,
   reregistration_overwrites_registered_at
     ⟨[("GW_01", ⟨"GW_01", 5, 5⟩)], [], []⟩ "GW_01" 9 ⟨"GW_01", 5, 5⟩
     (by decide)⟩

/-- Claim C9: inject is enqueue plus a count message.  For every gateway key
and command list, test_send_command appends the commands to the end of that
key's queue (creating it when absent, no deduplication) and answers ok with
the message naming exactly the number of supplied commands, zero included. -/
theorem inject_appends_and_reports_count (st : ServerState) (g : Option String)
    (cs : List Command) :
    (test_send_command st g cs).2 =
      ⟨true, "Added " ++ toString cs.length ++ " command(s) to queue"⟩ ∧
    lookupKey (test_send_command st g cs).1.command_queue g =
      some ((lookupKey st.command_queue g).getD [] ++ cs) :=
  ⟨rfl, test_send_command_queue_self st g cs⟩

/-- Claim C10: only register touches the gateway registry.  report_status and
get_command leave registered_gateways exactly as it was, for every input — in
particular they never refresh last_seen and never add an unregistered
identifier to the registry. -/
theorem only_register_touches_gateway_registry (st : ServerState)
    (gw? : Option String) (ds : List NodeUpdate) (now : Nat) (m : String) :
    (report_status st gw? ds now).1.registered_gateways =
      st.registered_gateways ∧
    (get_command st m).1.registered_gateways = st.registered_gateways := by
  refine ⟨rfl, ?_⟩
  unfold get_command
  cases hl : lookupKey st.command_queue (some m) with
  | none => rfl
  | some q =>
      by_cases hq : q.length > 0
      · simp [hq]
      · simp [hq]

end SmartLight
